/-
  Verification of the session-token / login flow of the `next-admin`
  repository.  The TypeScript source is shallowly embedded: each route
  handler becomes a pure Lean function on explicit request/response
  records, the `jsonwebtoken` sign/verify pair becomes an idealized
  tamper-evident codec (a signature is modelled as the exact pair of the
  secret and the signed payload, so it validates iff both are unchanged),
  and wall-clock time is an explicit `Nat` parameter (seconds).
-/
import Mathlib

namespace NextAdmin

/-- Identity of an authenticated principal (interface `User` in
`src/lib/auth` and the payload fields of `jwt.sign` in the login route). -/
structure User where
  id : String
  email : String
  name : String
  role : String
deriving DecidableEq, Repr

/-- The full decoded JWT payload: the four identity fields plus the
`iat`/`exp` claims that `jsonwebtoken` adds at signing time. -/
structure JwtPayload where
  id : String
  email : String
  name : String
  role : String
  iat : Nat
  exp : Nat
deriving DecidableEq, Repr

/-- A token as stored in the `auth-token` cookie.  `str s` is an arbitrary
string that is not a well-formed signed token (including the empty string
written by logout); `signed payload sigSecret sigPayload` is a structured
token whose signature part records the secret and payload it was computed
over — tampering with the payload leaves the signature part behind, which
is exactly how an HMAC betrays a mutation. -/
inductive Token where
  | str (s : String)
  | signed (payload : JwtPayload) (sigSecret : String) (sigPayload : JwtPayload)
deriving DecidableEq, Repr

/-- JavaScript truthiness of the cookie value: `if (!token) return null`
treats the empty string as absent. -/
def tokenFalsy : Token → Bool
  | .str s => s == ""
  | .signed _ _ _ => false

/-- Failure causes `jsonwebtoken`'s `verify` can throw; the callers in this
repository catch them all. -/
inductive JwtError where
  | malformed
  | badSignature
  | expired
deriving DecidableEq, Repr

/-- `process.env.JWT_SECRET || 'your-secret-key'`: the env var when set,
otherwise the development default. -/
def jwtSecret (env : Option String) : String :=
  env.getD "your-secret-key"

/-- `jwt.sign(payloadFields, secret, { expiresIn })`: embeds the identity
fields, stamps `iat` with the current time and `exp` with
`iat + expiresIn`, and attaches the signature over the payload. -/
def jwtSign (u : User) (secret : String) (now expiresIn : Nat) : Token :=
  let payload : JwtPayload := ⟨u.id, u.email, u.name, u.role, now, now + expiresIn⟩
  .signed payload secret payload

/-- `jwt.verify(token, secret)`: rejects strings that do not parse as
signed tokens, recomputes the signature and rejects mismatches, rejects
tokens whose `exp` is not strictly in the future, and otherwise returns
the full decoded payload.  Each rejection is a thrown error. -/
def jwtVerify (t : Token) (secret : String) (now : Nat) : Except JwtError JwtPayload :=
  match t with
  | .str _ => .error .malformed
  | .signed payload sigSecret sigPayload =>
    if sigSecret ≠ secret ∨ sigPayload ≠ payload then .error .badSignature
    else if payload.exp ≤ now then .error .expired
    else .ok payload

/-- An incoming request as the auth code observes it: the value of the
`auth-token` cookie, if the request carries one. -/
structure NextRequest where
  authTokenCookie : Option Token
deriving DecidableEq, Repr

/-- `getUserFromRequest` (`src/lib/auth`): reads the `auth-token` cookie,
returns `null` when it is missing or falsy, verifies it, and converts any
thrown verification error into `null` via the surrounding `try/catch`. -/
def getUserFromRequest (request : NextRequest) (env : Option String) (now : Nat) :
    Option JwtPayload :=
  match request.authTokenCookie with
  | none => none
  | some token =>
    if tokenFalsy token then none
    else
      match jwtVerify token (jwtSecret env) now with
      | .error _ => none
      | .ok decoded => some decoded

/-- A `Set-Cookie` instruction attached to a response by
`response.cookies.set({...})`. -/
structure CookieSet where
  name : String
  value : Token
  httpOnly : Bool
  path : String
  maxAge : Option Nat
  expires : Option Nat
  sameSite : String
deriving DecidableEq, Repr

/-- The JSON bodies the three auth routes produce. -/
inductive ResponseBody where
  | loginUser (user : User)
  | errorMsg (error : String)
  | meUser (success : Bool) (user : JwtPayload)
  | meMessage (success : Bool) (message : String)
  | logoutOk (success : Bool)
deriving DecidableEq, Repr

/-- A response: status code, JSON body, and the cookies set on it. -/
structure NextResponse where
  status : Nat
  body : ResponseBody
  setCookies : List CookieSet
deriving DecidableEq, Repr

/-- The parsed JSON body of a login request.  A field is `none` when the
JSON omits it; `some ""` is present-but-empty (both are falsy in the
handler's `if (!email || !password)` check). -/
structure LoginBody where
  email : Option String
  password : Option String
deriving DecidableEq, Repr

/-- JavaScript falsiness of a destructured string field. -/
def strFalsy : Option String → Bool
  | none => true
  | some s => s == ""

/-- Directory entry of the hardcoded `mockUsers` list in the login route. -/
structure MockUser where
  id : String
  email : String
  password : String
  name : String
  role : String
deriving DecidableEq, Repr

/-- The `mockUsers` directory of `src/app/api/auth/login/route.ts`. -/
def mockUsers : List MockUser :=
  [⟨"1", "admin@example.com", "admin123", "Admin User", "admin"⟩]

/-- `POST /api/auth/login`: validates that both fields are truthy (400
otherwise), looks the pair up in `mockUsers` (401 `Credenciales inválidas`
when no entry matches), and on success signs a token with a 1-day expiry,
returns the identity, and sets the `auth-token` cookie. -/
def loginPOST (body : LoginBody) (env : Option String) (now : Nat) : NextResponse :=
  if strFalsy body.email || strFalsy body.password then
    ⟨400, .errorMsg "Email y contraseña son requeridos", []⟩
  else
    match mockUsers.find? fun u =>
        u.email == body.email.getD "" && u.password == body.password.getD "" with
    | none => ⟨401, .errorMsg "Credenciales inválidas", []⟩
    | some user =>
      let identity : User := ⟨user.id, user.email, user.name, user.role⟩
      let token := jwtSign identity (jwtSecret env) now (60 * 60 * 24)
      ⟨200, .loginUser identity,
        [⟨"auth-token", token, true, "/", some (60 * 60 * 24), none, "strict"⟩]⟩

/-- `POST /api/auth/logout`: ignores the request, answers
`{ success: true }`, and overwrites the `auth-token` cookie with the empty
value and `expires: new Date(0)` (the epoch). -/
def logoutPOST (_request : NextRequest) : NextResponse :=
  ⟨200, .logoutOk true,
    [⟨"auth-token", .str "", true, "/", none, some 0, "strict"⟩]⟩

/-- `GET /api/auth/me`: decodes the cookie via `getUserFromRequest`; 401
`Not authenticated` when that returns `null`, otherwise 200 with the
decoded payload as the `user` field.  Sets no cookie either way. -/
def meGET (request : NextRequest) (env : Option String) (now : Nat) : NextResponse :=
  match getUserFromRequest request env now with
  | none => ⟨401, .meMessage false "Not authenticated", []⟩
  | some user => ⟨200, .meUser true user, []⟩

/-- Browser cookie-jar semantics for the single `auth-token` cookie: a
`Set-Cookie` whose `expires` is not in the future deletes the cookie,
otherwise the value is stored. -/
def applyCookieSet (jar : Option Token) (c : CookieSet) (now : Nat) : Option Token :=
  if c.name == "auth-token" then
    match c.expires with
    | some e => if e ≤ now then none else some c.value
    | none => some c.value
  else jar

/-- Apply every cookie a response sets to the browser's jar. -/
def applyResponseCookies (jar : Option Token) (resp : NextResponse) (now : Nat) :
    Option Token :=
  resp.setCookies.foldl (fun j c => applyCookieSet j c now) jar

/-- The user object the client-side demo login stores (it has no `id`). -/
structure ClientUser where
  email : String
  name : String
  role : String
deriving DecidableEq, Repr

/-- The Client Session Context's state triple (`auth-contexts.tsx`). -/
structure AuthState where
  user : Option ClientUser
  isLoading : Bool
  isAuthenticated : Bool
deriving DecidableEq, Repr

/-- Observable side effects the client context can perform.  The
`invokeLogoutHandler` constructor stands for a network call to
`POST /api/auth/logout`; it is part of the vocabulary so that its absence
from an effect list is meaningful. -/
inductive ClientEffect where
  | localStorageSetUser (u : ClientUser)
  | localStorageRemove (key : String)
  | routerPush (path : String)
  | invokeLogoutHandler
deriving DecidableEq, Repr

/-- Result of the client `login`: the state after the `finally` block, the
effects performed, and the error re-thrown to the form, if any. -/
structure ClientLoginResult where
  state : AuthState
  effects : List ClientEffect
  thrown : Option String
deriving DecidableEq, Repr

/-- `login` of `auth-contexts.tsx`: a hardcoded demo check (no API call);
on the matching pair it stores the user in state and local storage, on any
other pair it throws `Invalid credentials`; `isLoading` is reset by the
`finally` block on both paths. -/
def clientLogin (st : AuthState) (email password : String) : ClientLoginResult :=
  if email == "admin@example.com" && password == "password123" then
    let userData : ClientUser := ⟨email, "Admin User", "admin"⟩
    { state := { user := some userData, isLoading := false, isAuthenticated := true },
      effects := [.localStorageSetUser userData],
      thrown := none }
  else
    { state := { st with isLoading := false },
      effects := [],
      thrown := some "Invalid credentials" }

/-- `logout` of `auth-contexts.tsx`: `setUser(null)`,
`setIsAuthenticated(false)`, `localStorage.removeItem('user')`,
`router.push('/login')` — in that order, and nothing else. -/
def clientLogout (st : AuthState) : AuthState × List ClientEffect :=
  ({ user := none, isLoading := st.isLoading, isAuthenticated := false },
   [.localStorageRemove "user", .routerPush "/login"])

/-! ## Helper lemmas -/

/-- A login attempt with both fields present but matching no directory
entry is answered 401 with the generic message and no cookie. -/
theorem loginPOST_no_match (e p : String) (env : Option String) (now : Nat)
    (he : e ≠ "") (hp : p ≠ "")
    (h : ∀ u ∈ mockUsers, ¬(u.email = e ∧ u.password = p)) :
    loginPOST ⟨some e, some p⟩ env now =
      ⟨401, .errorMsg "Credenciales inválidas", []⟩ := by
  have hfind : (mockUsers.find? fun u => u.email == e && u.password == p) = none := by
    rw [List.find?_eq_none]
    intro u hu
    have := h u hu
    simp only [Bool.and_eq_true, beq_iff_eq]
    tauto
  simp [loginPOST, strFalsy, he, hp, hfind]

/-- A freshly issued token is never the falsy empty string. -/
theorem tokenFalsy_jwtSign (I : User) (secret : String) (now expiresIn : Nat) :
    tokenFalsy (jwtSign I secret now expiresIn) = false := rfl

/-- Verification of a freshly issued token before its expiry succeeds and
returns the full payload. -/
theorem jwtVerify_sign_ok (I : User) (secret : String)
    (iat expiresIn now : Nat) (h : now < iat + expiresIn) :
    jwtVerify (jwtSign I secret iat expiresIn) secret now =
      .ok ⟨I.id, I.email, I.name, I.role, iat, iat + expiresIn⟩ := by
  simp [jwtSign, jwtVerify]
  omega

/-! ## Claim theorems -/

/-- C1 (counterexample): the spec's scenario password `password123` does
not match the server's credential directory (`mockUsers` stores
`admin123`): the login handler answers 401 and sets no cookie. -/
theorem C1_password123_rejected :
    (loginPOST ⟨some "admin@example.com", some "password123"⟩ none 0).status = 401 ∧
    (loginPOST ⟨some "admin@example.com", some "password123"⟩ none 0).setCookies = [] := by
  decide

/-- C1 (amended): login with email `admin@example.com` and password
`admin123` — the pair actually in the directory — returns 200 with
identity `{id "1", email "admin@example.com", name "Admin User",
role "admin"}` and sets the `auth-token` session cookie. -/
theorem C1_login_directory_pair (env : Option String) (now : Nat) :
    loginPOST ⟨some "admin@example.com", some "admin123"⟩ env now =
      ⟨200, .loginUser ⟨"1", "admin@example.com", "Admin User", "admin"⟩,
        [⟨"auth-token",
          jwtSign ⟨"1", "admin@example.com", "Admin User", "admin"⟩
            (jwtSecret env) now (60 * 60 * 24),
          true, "/", some (60 * 60 * 24), none, "strict"⟩]⟩ := by
  simp [loginPOST, strFalsy, mockUsers, List.find?]

/-- C2: round-trip of the token codec — verifying, at any time strictly
before the expiry instant, the token issued for an identity `I` returns a
payload whose identity fields are exactly those of `I`. -/
theorem C2_verify_issue_roundtrip (I : User) (secret : String)
    (iat expiresIn now : Nat) (h : now < iat + expiresIn) :
    jwtVerify (jwtSign I secret iat expiresIn) secret now =
      .ok ⟨I.id, I.email, I.name, I.role, iat, iat + expiresIn⟩ :=
  jwtVerify_sign_ok I secret iat expiresIn now h

/-- Witness for C2 at a concrete identity, secret and time. -/
theorem C2_verify_issue_roundtrip_witness :
    jwtVerify
        (jwtSign ⟨"1", "admin@example.com", "Admin User", "admin"⟩
          "your-secret-key" 0 86400)
        "your-secret-key" 100 =
      .ok ⟨"1", "admin@example.com", "Admin User", "admin", 0, 86400⟩ :=
  C2_verify_issue_roundtrip ⟨"1", "admin@example.com", "Admin User", "admin"⟩
    "your-secret-key" 0 86400 100 (by decide)

/-- C3: every failure cause collapses into the absent identity — a cookie
holding a malformed string, a token whose signature part does not match
the secret and payload (tampering), or a token at/after its expiry all
make `getUserFromRequest` return `none`; being a total Lean function it
never raises across the call boundary. -/
theorem C3_verify_absent_on_failure (request : NextRequest) (env : Option String)
    (now : Nat) :
    (∀ s, request.authTokenCookie = some (.str s) →
      getUserFromRequest request env now = none) ∧
    (∀ p ss sp, request.authTokenCookie = some (.signed p ss sp) →
      (ss ≠ jwtSecret env ∨ sp ≠ p) →
      getUserFromRequest request env now = none) ∧
    (∀ p ss sp, request.authTokenCookie = some (.signed p ss sp) →
      p.exp ≤ now →
      getUserFromRequest request env now = none) := by
  refine ⟨?_, ?_, ?_⟩
  · intro s hc
    simp [getUserFromRequest, hc, tokenFalsy, jwtVerify]
  · intro p ss sp hc hbad
    simp only [getUserFromRequest, hc, tokenFalsy]
    simp [jwtVerify, hbad]
  · intro p ss sp hc hexp
    simp only [getUserFromRequest, hc, tokenFalsy]
    by_cases hsig : ss ≠ jwtSecret env ∨ sp ≠ p
    · simp [jwtVerify, hsig]
    · simp [jwtVerify, hsig, hexp]

/-- Witness for C3: a malformed cookie, a tampered token and an expired
token each produce the absent identity. -/
theorem C3_verify_absent_on_failure_witness :
    getUserFromRequest ⟨some (.str "garbage")⟩ none 0 = none ∧
    getUserFromRequest
      ⟨some (.signed ⟨"1", "a", "n", "r", 0, 86400⟩ "wrong-secret"
        ⟨"1", "a", "n", "r", 0, 86400⟩)⟩ none 0 = none ∧
    getUserFromRequest
      ⟨some (.signed ⟨"1", "a", "n", "r", 0, 86400⟩ "your-secret-key"
        ⟨"1", "a", "n", "r", 0, 86400⟩)⟩ none 86400 = none :=
  ⟨(C3_verify_absent_on_failure ⟨some (.str "garbage")⟩ none 0).1 "garbage" rfl,
   (C3_verify_absent_on_failure _ none 0).2.1 _ _ _ rfl (Or.inl (by decide)),
   (C3_verify_absent_on_failure _ none 86400).2.2 _ _ _ rfl (by decide)⟩

/-- C4: a login with an email absent from the directory and a login with a
directory email but a wrong password receive the same status code and the
same body (the generic invalid-credentials error). -/
theorem C4_failure_indistinguishable (e1 p1 e2 p2 : String) (env : Option String)
    (now : Nat)
    (he1 : e1 ≠ "") (hp1 : p1 ≠ "") (he2 : e2 ≠ "") (hp2 : p2 ≠ "")
    (hunknown : ∀ u ∈ mockUsers, u.email ≠ e1)
    (_hknown : ∃ u ∈ mockUsers, u.email = e2)
    (hwrong : ∀ u ∈ mockUsers, u.email = e2 → u.password ≠ p2) :
    (loginPOST ⟨some e1, some p1⟩ env now).status =
      (loginPOST ⟨some e2, some p2⟩ env now).status ∧
    (loginPOST ⟨some e1, some p1⟩ env now).body =
      (loginPOST ⟨some e2, some p2⟩ env now).body := by
  rw [loginPOST_no_match e1 p1 env now he1 hp1
        (fun u hu hm => hunknown u hu hm.1),
      loginPOST_no_match e2 p2 env now he2 hp2
        (fun u hu hm => hwrong u hu hm.1 hm.2)]
  exact ⟨rfl, rfl⟩

/-- Witness for C4: unknown email vs known email with wrong password. -/
theorem C4_failure_indistinguishable_witness :
    (loginPOST ⟨some "nobody@example.com", some "pw"⟩ none 0).status =
      (loginPOST ⟨some "admin@example.com", some "wrong"⟩ none 0).status ∧
    (loginPOST ⟨some "nobody@example.com", some "pw"⟩ none 0).body =
      (loginPOST ⟨some "admin@example.com", some "wrong"⟩ none 0).body :=
  C4_failure_indistinguishable "nobody@example.com" "pw" "admin@example.com" "wrong"
    none 0 (by decide) (by decide) (by decide) (by decide)
    (by decide) (by decide) (by decide)

/-- C5: a login request missing the email or the password field is
answered 400 (the validation error), and every non-successful login
response carries no cookie mutation. -/
theorem C5_validation_and_no_cookie (body : LoginBody) (env : Option String)
    (now : Nat) :
    ((body.email = none ∨ body.password = none) →
      (loginPOST body env now).status = 400) ∧
    ((loginPOST body env now).status ≠ 200 →
      (loginPOST body env now).setCookies = []) := by
  constructor
  · intro hmiss
    rcases hmiss with h | h <;> simp [loginPOST, h, strFalsy]
  · unfold loginPOST
    split
    · intro _; rfl
    · split
      · intro _; rfl
      · intro hfail; exact absurd rfl hfail

/-- Witness for C5: a body with no email is answered 400, and a
wrong-password request mutates no cookie. -/
theorem C5_validation_and_no_cookie_witness :
    (loginPOST ⟨none, some "pw"⟩ none 0).status = 400 ∧
    (loginPOST ⟨some "admin@example.com", some "wrong"⟩ none 0).setCookies = [] :=
  ⟨(C5_validation_and_no_cookie ⟨none, some "pw"⟩ none 0).1 (Or.inl rfl),
   (C5_validation_and_no_cookie ⟨some "admin@example.com", some "wrong"⟩ none 0).2
     (by decide)⟩

/-- C6: for every incoming request the logout handler succeeds, and its
response overwrites the session cookie with the empty value and an expiry
instant (the epoch) strictly before any positive current time. -/
theorem C6_logout_always_succeeds (request : NextRequest) (now : Nat)
    (h : 0 < now) :
    (logoutPOST request).status = 200 ∧
    (logoutPOST request).body = .logoutOk true ∧
    ∃ c ∈ (logoutPOST request).setCookies,
      c.name = "auth-token" ∧ c.value = .str "" ∧
      ∃ e, c.expires = some e ∧ e < now := by
  refine ⟨rfl, rfl, ⟨"auth-token", .str "", true, "/", none, some 0, "strict"⟩,
    ?_, rfl, rfl, 0, rfl, h⟩
  simp [logoutPOST]

/-- Witness for C6 at a concrete request and time. -/
theorem C6_logout_always_succeeds_witness :
    (logoutPOST ⟨none⟩).status = 200 ∧
    (logoutPOST ⟨none⟩).body = .logoutOk true ∧
    ∃ c ∈ (logoutPOST ⟨none⟩).setCookies,
      c.name = "auth-token" ∧ c.value = .str "" ∧
      ∃ e, c.expires = some e ∧ e < 1 :=
  C6_logout_always_succeeds ⟨none⟩ 1 (by decide)

/-- C7 (counterexample): the server keeps no revocation state, so a lookup
that still presents the token issued at time 0 — after a logout was
performed — is answered 200 with the identity, not the unauthenticated
result. -/
theorem C7_presented_token_still_valid :
    (logoutPOST ⟨some (jwtSign ⟨"1", "admin@example.com", "Admin User", "admin"⟩
        (jwtSecret none) 0 86400)⟩).status = 200 ∧
    (meGET ⟨some (jwtSign ⟨"1", "admin@example.com", "Admin User", "admin"⟩
        (jwtSecret none) 0 86400)⟩ none 100).status = 200 ∧
    (meGET ⟨some (jwtSign ⟨"1", "admin@example.com", "Admin User", "admin"⟩
        (jwtSecret none) 0 86400)⟩ none 100).status ≠ 401 := by
  decide

/-- C7 (amended): logout's `Set-Cookie` (empty value, epoch expiry)
removes the token from the browser's jar, so a subsequent identity lookup
made through that jar presents no cookie and is answered 401. -/
theorem C7_lookup_after_logout_unauthenticated (jar : Option Token)
    (request : NextRequest) (env : Option String) (tClear tLookup : Nat) :
    meGET ⟨applyResponseCookies jar (logoutPOST request) tClear⟩ env tLookup =
      ⟨401, .meMessage false "Not authenticated", []⟩ := by
  simp [logoutPOST, applyResponseCookies, applyCookieSet, meGET, getUserFromRequest]

/-- C8: the identity-lookup handler answers 401 exactly when the decoded
identity is absent (missing cookie or failed verification) and 200 with
the decoded payload otherwise, and it never sets a cookie on its
response. -/
theorem C8_me_handler (request : NextRequest) (env : Option String) (now : Nat) :
    (getUserFromRequest request env now = none →
      meGET request env now = ⟨401, .meMessage false "Not authenticated", []⟩) ∧
    (∀ p, getUserFromRequest request env now = some p →
      meGET request env now = ⟨200, .meUser true p, []⟩) ∧
    (meGET request env now).setCookies = [] := by
  refine ⟨fun h => by simp [meGET, h], fun p h => by simp [meGET, h], ?_⟩
  unfold meGET
  cases getUserFromRequest request env now <;> rfl

/-- Witness for C8: a request with no cookie gets 401; a request with a
valid token gets 200 with the full payload; neither sets a cookie. -/
theorem C8_me_handler_witness :
    meGET ⟨none⟩ none 0 = ⟨401, .meMessage false "Not authenticated", []⟩ ∧
    meGET ⟨some (jwtSign ⟨"1", "admin@example.com", "Admin User", "admin"⟩
        "your-secret-key" 0 86400)⟩ none 5 =
      ⟨200, .meUser true ⟨"1", "admin@example.com", "Admin User", "admin", 0, 86400⟩,
        []⟩ :=
  ⟨(C8_me_handler ⟨none⟩ none 0).1 rfl,
   (C8_me_handler ⟨some (jwtSign ⟨"1", "admin@example.com", "Admin User", "admin"⟩
       "your-secret-key" 0 86400)⟩ none 5).2.1 _ (by decide)⟩

/-- C9 (counterexample): the client `logout` at a concrete authenticated
state performs no call to the logout request handler — its effect list
holds only the local-storage removal and the redirect. -/
theorem C9_logout_no_handler_call :
    ClientEffect.invokeLogoutHandler ∉
      (clientLogout ⟨some ⟨"admin@example.com", "Admin User", "admin"⟩,
        false, true⟩).2 := by
  decide

/-- C9 (amended): the client `logout` clears the stored identity and the
authenticated flag, removes the `user` local-storage entry, and signals
the redirect to `/login`; it does not invoke the logout request
handler. -/
theorem C9_logout_local_only (st : AuthState) :
    clientLogout st =
      (⟨none, st.isLoading, false⟩,
       [.localStorageRemove "user", .routerPush "/login"]) := rfl

/-- C10: for every token issued the way login issues them (1-day expiry),
a successful identity lookup returns the full decoded payload: the four
identity fields plus the numeric `iat` and `exp` claims stamped at signing
time. -/
theorem C10_me_returns_full_payload (I : User) (env : Option String)
    (iat now : Nat) (h : now < iat + 60 * 60 * 24) :
    meGET ⟨some (jwtSign I (jwtSecret env) iat (60 * 60 * 24))⟩ env now =
      ⟨200, .meUser true ⟨I.id, I.email, I.name, I.role, iat, iat + 60 * 60 * 24⟩,
        []⟩ := by
  simp [meGET, getUserFromRequest, tokenFalsy_jwtSign,
    jwtVerify_sign_ok I (jwtSecret env) iat (60 * 60 * 24) now h]

/-- Witness for C10 at a concrete identity and time. -/
theorem C10_me_returns_full_payload_witness :
    meGET ⟨some (jwtSign ⟨"1", "admin@example.com", "Admin User", "admin"⟩
        (jwtSecret none) 0 (60 * 60 * 24))⟩ none 100 =
      ⟨200, .meUser true ⟨"1", "admin@example.com", "Admin User", "admin", 0, 86400⟩,
        []⟩ :=
  C10_me_returns_full_payload ⟨"1", "admin@example.com", "Admin User", "admin"⟩
    none 0 100 (by decide)

end NextAdmin
